import Mathlib

set_option maxHeartbeats 1000000

/-!
Verification development for the owner_tool of fido-device-onboard-rs.

The pure data flow of src/owner_tool/src/main.rs is embedded shallowly:
structured-document values, the rendezvous descriptor loader, the device
certificate builder, device initialization, credential inspection and
voucher extension. External cryptographic primitives and binary codecs
(openssl, serde_cbor) are injected as explicit function parameters, since
their implementations are not part of this code base; types and
constructors of the sibling crate fdo_data_formats that are not in the
sources at hand are modelled from the specification and marked as such.
-/

/-- Observable interface of a serde yaml Number as used by yaml_to_cbor:
the results of its as_u64, as_i64 and as_f64 accessor methods. The f64
payload is carried as its raw bit pattern and never interpreted. -/
structure YamlNumber where
  asU64 : Option Nat
  asI64 : Option Int
  asF64 : Option Nat
deriving DecidableEq, Repr

mutual

/-- Model of a serde yaml Value: the closed variant set matched by
yaml_to_cbor in the source (null, bool, number, string, sequence,
mapping). -/
inductive YamlValue where
  | null
  | bool (b : Bool)
  | number (n : YamlNumber)
  | string (s : String)
  | sequence (xs : YamlSeq)
  | mapping (m : YamlMap)

/-- Ordered sequence of yaml values (a Vec in the source). -/
inductive YamlSeq where
  | nil
  | cons (head : YamlValue) (tail : YamlSeq)

/-- Ordered key-value pairs of a yaml Mapping, in insertion order. -/
inductive YamlMap where
  | nil
  | cons (key : YamlValue) (val : YamlValue) (tail : YamlMap)

end

mutual

/-- Model of a serde_cbor Value as produced by yaml_to_cbor. The Integer
payload is an i128 in the source, carried here as Int; the Float payload
is carried as its raw bit pattern. -/
inductive CborValue where
  | null
  | bool (b : Bool)
  | integer (i : Int)
  | float (bits : Nat)
  | text (s : String)
  | array (xs : CborSeq)
  | map (m : CborMap)

/-- Ordered sequence of cbor values. -/
inductive CborSeq where
  | nil
  | cons (head : CborValue) (tail : CborSeq)

/-- Ordered key-value pairs of a cbor map, in insertion order. -/
inductive CborMap where
  | nil
  | cons (key : CborValue) (val : CborValue) (tail : CborMap)

end

/-- Outcome of a conversion step: a value, a recoverable error returned to
the caller (bail in the source), or a process abort (a failed unwrap). -/
inductive ConvResult (α : Type) where
  | ok (value : α)
  | err (msg : String)
  | panicked
deriving DecidableEq, Repr

mutual

/-- Shallow embedding of yaml_to_cbor (main.rs lines 152-179): recursively
converts a yaml value to a cbor value. Numbers try as_u64, then as_i64,
then as_f64, and bail otherwise; sequences collect into a Result, so the
first error propagates; the mapping branch calls unwrap on each converted
key and value, so a failed nested conversion panics. -/
def yaml_to_cbor : YamlValue → ConvResult CborValue
  | .null => .ok .null
  | .bool b => .ok (.bool b)
  | .number nr =>
    match nr.asU64 with
    | some u => .ok (.integer (Int.ofNat u))
    | none =>
      match nr.asI64 with
      | some i => .ok (.integer i)
      | none =>
        match nr.asF64 with
        | some f => .ok (.float f)
        | none => .err "Invalid number encountered"
  | .string s => .ok (.text s)
  | .sequence seq =>
    match yamlSeqToCbor seq with
    | .ok xs => .ok (.array xs)
    | .err e => .err e
    | .panicked => .panicked
  | .mapping m =>
    match yamlMapToCbor m with
    | .ok ps => .ok (.map ps)
    | .err e => .err e
    | .panicked => .panicked

/-- The Sequence branch of yaml_to_cbor: elements are converted in order
and collected into a Result, so the first failure stops the iteration and
an error propagates as an error. -/
def yamlSeqToCbor : YamlSeq → ConvResult CborSeq
  | .nil => .ok .nil
  | .cons x xs =>
    match yaml_to_cbor x with
    | .ok cx =>
      match yamlSeqToCbor xs with
      | .ok cxs => .ok (.cons cx cxs)
      | .err e => .err e
      | .panicked => .panicked
    | .err e => .err e
    | .panicked => .panicked

/-- The Mapping branch of yaml_to_cbor: the source calls .unwrap() on the
converted key and value of every pair, so any failed nested conversion
aborts the process instead of returning the error. -/
def yamlMapToCbor : YamlMap → ConvResult CborMap
  | .nil => .ok .nil
  | .cons k v rest =>
    match yaml_to_cbor k with
    | .ok ck =>
      match yaml_to_cbor v with
      | .ok cv =>
        match yamlMapToCbor rest with
        | .ok crest => .ok (.cons ck cv crest)
        | .err _ => .panicked
        | .panicked => .panicked
      | .err _ => .panicked
      | .panicked => .panicked
    | .err _ => .panicked
    | .panicked => .panicked

end

/-- Modelled from the spec: the enumerated rendezvous variable identifiers
of fdo_data_formats::constants::RendezvousVariable, whose definition is
not among the sources at hand. The spec names the set by example
(connection protocol, address, port, delay) and its scenario uses the
identifier device-port; a representative closed enumeration is used. -/
inductive RendezvousVariable where
  | deviceOnly
  | ownerOnly
  | ipAddress
  | devicePort
  | ownerPort
  | dns
  | protocolValue
  | delaysec
deriving DecidableEq, Repr

/-- Modelled from the spec: RendezvousVariable::from_str, an exact,
case-sensitive match of the given string against the fixed name table;
any other string is rejected. -/
def RendezvousVariable.from_str : String → Option RendezvousVariable
  | "device-only" => some .deviceOnly
  | "owner-only" => some .ownerOnly
  | "ip-address" => some .ipAddress
  | "device-port" => some .devicePort
  | "owner-port" => some .ownerPort
  | "dns" => some .dns
  | "protocol" => some .protocolValue
  | "delaysec" => some .delaysec
  | _ => none

/-- One rendezvous entry: an ordered list of variable-value pairs. -/
abbrev RendezvousEntry : Type := List (RendezvousVariable × CborValue)

/-- RendezvousInfo: an ordered list of rendezvous entries. -/
abbrev RendezvousInfo : Type := List RendezvousEntry

/-- Failure cases of load_rendezvous_info, by source bail site: a non
sequence top value, a non mapping entry, a non string key, a key that is
no rendezvous variable (the error carries the offending key), or an error
propagated from value conversion. -/
inductive LoadError where
  | invalidTopType
  | invalidEntryType
  | invalidKeyType
  | unknownRendezvousVariable (name : String)
  | valueError (msg : String)
deriving DecidableEq, Repr

/-- Outcome of loading: a value, an error returned to the caller, or a
process abort propagated from a failed unwrap in yaml_to_cbor. -/
inductive LoadResult (α : Type) where
  | ok (value : α)
  | err (e : LoadError)
  | panicked

/-- Inner loop of load_rendezvous_info (main.rs lines 200-211): for each
key-value pair, in order, the key must be a string and must parse as a
rendezvous variable, then the value is converted with yaml_to_cbor; the
first failure aborts the whole load. -/
def processEntry : YamlMap → LoadResult RendezvousEntry
  | .nil => .ok []
  | .cons k v rest =>
    match k with
    | .string s =>
      match RendezvousVariable.from_str s with
      | none => .err (.unknownRendezvousVariable s)
      | some rv =>
        match yaml_to_cbor v with
        | .ok cv =>
          match processEntry rest with
          | .ok l => .ok ((rv, cv) :: l)
          | .err e => .err e
          | .panicked => .panicked
        | .err m => .err (.valueError m)
        | .panicked => .panicked
    | _ => .err .invalidKeyType

/-- Outer loop of load_rendezvous_info (main.rs lines 192-214): each entry
of the top-level sequence must be a mapping and is processed in order;
the first failure aborts the whole load. -/
def processEntries : YamlSeq → LoadResult RendezvousInfo
  | .nil => .ok []
  | .cons e rest =>
    match e with
    | .mapping m =>
      match processEntry m with
      | .ok en =>
        match processEntries rest with
        | .ok l => .ok (en :: l)
        | .err e2 => .err e2
        | .panicked => .panicked
      | .err e2 => .err e2
      | .panicked => .panicked
    | _ => .err .invalidEntryType

/-- Shallow embedding of load_rendezvous_info (main.rs lines 181-217),
starting from the already parsed top-level yaml value: the top value must
be a sequence, whose entries are processed in order. -/
def load_rendezvous_info : YamlValue → LoadResult RendezvousInfo
  | .sequence es => processEntries es
  | _ => .err .invalidTopType

/-- A mapping contains a string key that is no rendezvous variable. -/
def entryHasUnknownKey : YamlMap → Bool
  | .nil => false
  | .cons k _ rest =>
    (match k with
     | .string s => (RendezvousVariable.from_str s).isNone
     | _ => false) || entryHasUnknownKey rest

/-- Some mapping entry of the sequence contains an unknown string key. -/
def entriesHaveUnknownKey : YamlSeq → Bool
  | .nil => false
  | .cons e rest =>
    (match e with
     | .mapping m => entryHasUnknownKey m
     | _ => false) || entriesHaveUnknownKey rest

/-- The document contains an entry with an unknown string key. -/
def docHasUnknownKey : YamlValue → Bool
  | .sequence es => entriesHaveUnknownKey es
  | _ => false

mutual

theorem yaml_to_cbor_err_msg (v : YamlValue) (e : String)
    (h : yaml_to_cbor v = .err e) : e = "Invalid number encountered" := by
  cases v with
  | null => simp [yaml_to_cbor] at h
  | bool b => simp [yaml_to_cbor] at h
  | string s => simp [yaml_to_cbor] at h
  | number nr =>
    obtain ⟨u, i, f⟩ := nr
    cases u <;> cases i <;> cases f <;> simp_all [yaml_to_cbor]
  | sequence xs =>
    cases hx : yamlSeqToCbor xs with
    | ok a => simp [yaml_to_cbor, hx] at h
    | err e2 =>
      simp [yaml_to_cbor, hx] at h
      exact h ▸ yamlSeqToCbor_err_msg xs e2 hx
    | panicked => simp [yaml_to_cbor, hx] at h
  | mapping m =>
    cases hm : yamlMapToCbor m with
    | ok a => simp [yaml_to_cbor, hm] at h
    | err e2 => exact absurd hm (yamlMapToCbor_no_err m e2)
    | panicked => simp [yaml_to_cbor, hm] at h

theorem yamlSeqToCbor_err_msg (xs : YamlSeq) (e : String)
    (h : yamlSeqToCbor xs = .err e) : e = "Invalid number encountered" := by
  cases xs with
  | nil => simp [yamlSeqToCbor] at h
  | cons x rest =>
    cases hx : yaml_to_cbor x with
    | ok cx =>
      cases hr : yamlSeqToCbor rest with
      | ok crest => simp [yamlSeqToCbor, hx, hr] at h
      | err e2 =>
        simp [yamlSeqToCbor, hx, hr] at h
        exact h ▸ yamlSeqToCbor_err_msg rest e2 hr
      | panicked => simp [yamlSeqToCbor, hx, hr] at h
    | err e2 =>
      simp [yamlSeqToCbor, hx] at h
      exact h ▸ yaml_to_cbor_err_msg x e2 hx
    | panicked => simp [yamlSeqToCbor, hx] at h

theorem yamlMapToCbor_no_err (m : YamlMap) (e : String) :
    yamlMapToCbor m ≠ .err e := by
  cases m with
  | nil => simp [yamlMapToCbor]
  | cons k v rest =>
    intro h
    cases hk : yaml_to_cbor k with
    | ok ck =>
      cases hv : yaml_to_cbor v with
      | ok cv =>
        cases hr : yamlMapToCbor rest with
        | ok crest => simp [yamlMapToCbor, hk, hv, hr] at h
        | err e2 => exact yamlMapToCbor_no_err rest e2 hr
        | panicked => simp [yamlMapToCbor, hk, hv, hr] at h
      | err e2 => simp [yamlMapToCbor, hk, hv] at h
      | panicked => simp [yamlMapToCbor, hk, hv] at h
    | err e2 => simp [yamlMapToCbor, hk] at h
    | panicked => simp [yamlMapToCbor, hk] at h

end

/-- C7: the document-value-to-protocol-value conversion yaml_to_cbor is a
pure recursive function mapping null to null, boolean to boolean, text to
text, sequences to lists preserving order, maps to maps preserving key
order, and numbers by trying unsigned-integer representation first, then
signed-integer, then floating-point; the only error it ever returns is
the invalid-number error raised when none of the three applies. -/
theorem yaml_to_cbor_conversion_correct :
    (yaml_to_cbor .null = .ok .null)
  ∧ (∀ b, yaml_to_cbor (.bool b) = .ok (.bool b))
  ∧ (∀ s, yaml_to_cbor (.string s) = .ok (.text s))
  ∧ (∀ nr u, nr.asU64 = some u →
       yaml_to_cbor (.number nr) = .ok (.integer (Int.ofNat u)))
  ∧ (∀ nr i, nr.asU64 = none → nr.asI64 = some i →
       yaml_to_cbor (.number nr) = .ok (.integer i))
  ∧ (∀ nr f, nr.asU64 = none → nr.asI64 = none → nr.asF64 = some f →
       yaml_to_cbor (.number nr) = .ok (.float f))
  ∧ (∀ nr, nr.asU64 = none → nr.asI64 = none → nr.asF64 = none →
       yaml_to_cbor (.number nr) = .err "Invalid number encountered")
  ∧ (∀ xs cxs, yamlSeqToCbor xs = .ok cxs →
       yaml_to_cbor (.sequence xs) = .ok (.array cxs))
  ∧ (yamlSeqToCbor .nil = .ok .nil)
  ∧ (∀ x xs cx cxs, yaml_to_cbor x = .ok cx → yamlSeqToCbor xs = .ok cxs →
       yamlSeqToCbor (.cons x xs) = .ok (.cons cx cxs))
  ∧ (∀ m cm, yamlMapToCbor m = .ok cm →
       yaml_to_cbor (.mapping m) = .ok (.map cm))
  ∧ (yamlMapToCbor .nil = .ok .nil)
  ∧ (∀ k v rest ck cv crest, yaml_to_cbor k = .ok ck → yaml_to_cbor v = .ok cv →
       yamlMapToCbor rest = .ok crest →
       yamlMapToCbor (.cons k v rest) = .ok (.cons ck cv crest))
  ∧ (∀ v e, yaml_to_cbor v = .err e → e = "Invalid number encountered") := by
  refine ⟨rfl, fun b => rfl, fun s => rfl, ?_, ?_, ?_, ?_, ?_, rfl, ?_, ?_, rfl, ?_, ?_⟩
  · intro nr u h; simp [yaml_to_cbor, h]
  · intro nr i h1 h2; simp [yaml_to_cbor, h1, h2]
  · intro nr f h1 h2 h3; simp [yaml_to_cbor, h1, h2, h3]
  · intro nr h1 h2 h3; simp [yaml_to_cbor, h1, h2, h3]
  · intro xs cxs h; simp [yaml_to_cbor, h]
  · intro x xs cx cxs h1 h2; simp [yamlSeqToCbor, h1, h2]
  · intro m cm h; simp [yaml_to_cbor, h]
  · intro k v rest ck cv crest h1 h2 h3; simp [yamlMapToCbor, h1, h2, h3]
  · exact yaml_to_cbor_err_msg

/-- Witness for C7: the map-branch component applied at a concrete
one-pair mapping, every hypothesis discharged by evaluation. -/
theorem yaml_to_cbor_conversion_correct_witness :
    yamlMapToCbor (.cons (.string "a") .null .nil)
      = .ok (.cons (.text "a") .null .nil) :=
  yaml_to_cbor_conversion_correct.2.2.2.2.2.2.2.2.2.2.2.2.1
    (.string "a") .null .nil (.text "a") .null .nil rfl rfl rfl

/-- The pair (k, v) occurs in the yaml mapping m. -/
def YamlMap.MemPair (k v : YamlValue) : YamlMap → Prop
  | .nil => False
  | .cons k2 v2 rest => (k = k2 ∧ v = v2) ∨ YamlMap.MemPair k v rest

theorem yamlMapToCbor_panics_of_mem_err (m : YamlMap) :
    ∀ k v e, YamlMap.MemPair k v m →
      (yaml_to_cbor k = .err e ∨ yaml_to_cbor v = .err e) →
      yamlMapToCbor m = .panicked := by
  cases m with
  | nil => intro k v e hmem; exact absurd hmem id
  | cons k2 v2 rest =>
    intro k v e hmem herr
    rcases hmem with ⟨hk, hv⟩ | hmem
    · subst hk; subst hv
      rcases herr with herr | herr
      · simp [yamlMapToCbor, herr]
      · cases hk2 : yaml_to_cbor k <;> simp [yamlMapToCbor, hk2, herr]
    · have hrest := yamlMapToCbor_panics_of_mem_err rest k v e hmem herr
      cases hk2 : yaml_to_cbor k2 <;>
        cases hv2 : yaml_to_cbor v2 <;>
          simp [yamlMapToCbor, hk2, hv2, hrest]

/-- C10: in yaml_to_cbor, the mapping branch unwraps the converted keys
and values, so a conversion error nested anywhere inside a map makes the
whole conversion panic instead of returning that error; the only failing
conversion is a number with no unsigned, signed or floating-point
representation, and such a value at top level or at the head of a
sequence returns the error normally. -/
theorem yaml_to_cbor_map_branch_panics :
    (∀ m k v e, YamlMap.MemPair k v m →
       (yaml_to_cbor k = .err e ∨ yaml_to_cbor v = .err e) →
       yaml_to_cbor (.mapping m) = .panicked)
  ∧ (∀ m e, yaml_to_cbor (.mapping m) ≠ .err e)
  ∧ (∀ nr, nr.asU64 = none → nr.asI64 = none → nr.asF64 = none →
       yaml_to_cbor (.number nr) = .err "Invalid number encountered")
  ∧ (∀ x xs e, yaml_to_cbor x = .err e →
       yaml_to_cbor (.sequence (.cons x xs)) = .err e)
  ∧ (∀ x xs cx e, yaml_to_cbor x = .ok cx → yamlSeqToCbor xs = .err e →
       yaml_to_cbor (.sequence (.cons x xs)) = .err e) := by
  refine ⟨?_, ?_, ?_, ?_, ?_⟩
  · intro m k v e hmem herr
    have h := yamlMapToCbor_panics_of_mem_err m k v e hmem herr
    simp [yaml_to_cbor, h]
  · intro m e h
    cases hm : yamlMapToCbor m with
    | ok a => simp [yaml_to_cbor, hm] at h
    | err e2 => exact yamlMapToCbor_no_err m e2 hm
    | panicked => simp [yaml_to_cbor, hm] at h
  · intro nr h1 h2 h3; simp [yaml_to_cbor, h1, h2, h3]
  · intro x xs e h; simp [yaml_to_cbor, yamlSeqToCbor, h]
  · intro x xs cx e h1 h2; simp [yaml_to_cbor, yamlSeqToCbor, h1, h2]

/-- Witness for C10: a number with no representation nested in a map makes
the conversion panic, while the same number at top level and at the head
of a sequence returns the invalid-number error. -/
theorem yaml_to_cbor_map_branch_panics_witness :
    yaml_to_cbor (.mapping (.cons .null (.number ⟨none, none, none⟩) .nil))
        = .panicked
  ∧ yaml_to_cbor (.number ⟨none, none, none⟩)
        = .err "Invalid number encountered"
  ∧ yaml_to_cbor (.sequence (.cons (.number ⟨none, none, none⟩) .nil))
        = .err "Invalid number encountered" :=
  ⟨yaml_to_cbor_map_branch_panics.1
      (.cons .null (.number ⟨none, none, none⟩) .nil)
      .null (.number ⟨none, none, none⟩) "Invalid number encountered"
      (Or.inl ⟨rfl, rfl⟩) (Or.inr rfl),
   yaml_to_cbor_map_branch_panics.2.2.1 ⟨none, none, none⟩ rfl rfl rfl,
   yaml_to_cbor_map_branch_panics.2.2.2.1
      (.number ⟨none, none, none⟩) .nil "Invalid number encountered" rfl⟩

theorem processEntry_ok_no_unknown (m : YamlMap) :
    ∀ en, processEntry m = .ok en → entryHasUnknownKey m = false := by
  cases m with
  | nil => intro en h; rfl
  | cons k v rest =>
    intro en h
    cases k with
    | string s =>
      cases hs : RendezvousVariable.from_str s with
      | none => simp [processEntry, hs] at h
      | some rv =>
        cases hv : yaml_to_cbor v with
        | ok cv =>
          cases hr : processEntry rest with
          | ok l =>
            have hrest := processEntry_ok_no_unknown rest l hr
            simp [entryHasUnknownKey, hs, hrest]
          | err e2 => simp [processEntry, hs, hv, hr] at h
          | panicked => simp [processEntry, hs, hv, hr] at h
        | err m2 => simp [processEntry, hs, hv] at h
        | panicked => simp [processEntry, hs, hv] at h
    | null => simp [processEntry] at h
    | bool b => simp [processEntry] at h
    | number nr => simp [processEntry] at h
    | sequence xs => simp [processEntry] at h
    | mapping m2 => simp [processEntry] at h

theorem processEntries_ok_no_unknown (es : YamlSeq) :
    ∀ info, processEntries es = .ok info → entriesHaveUnknownKey es = false := by
  cases es with
  | nil => intro info h; rfl
  | cons e rest =>
    intro info h
    cases e with
    | mapping m =>
      cases hm : processEntry m with
      | ok en =>
        cases hr : processEntries rest with
        | ok l =>
          have h1 := processEntry_ok_no_unknown m en hm
          have h2 := processEntries_ok_no_unknown rest l hr
          simp [entriesHaveUnknownKey, h1, h2]
        | err e2 => simp [processEntries, hm, hr] at h
        | panicked => simp [processEntries, hm, hr] at h
      | err e2 => simp [processEntries, hm] at h
      | panicked => simp [processEntries, hm] at h
    | null => simp [processEntries] at h
    | bool b => simp [processEntries] at h
    | number nr => simp [processEntries] at h
    | string s => simp [processEntries] at h
    | sequence xs => simp [processEntries] at h

/-- C6 (amended): a document containing an entry with a string key that is
no rendezvous variable never yields a RendezvousInfo; when the first
anomaly the loader meets, scanning entries in order and keys before
values, is such a key, the load fails with UnknownRendezvousVariable
naming that key (an earlier anomaly of a different kind, such as a
non-string key, produces its own error instead). -/
theorem load_rendezvous_info_unknown_key_rejected :
    (∀ doc info, load_rendezvous_info doc = .ok info →
       docHasUnknownKey doc = false)
  ∧ (∀ s v rest more, RendezvousVariable.from_str s = none →
       load_rendezvous_info
           (.sequence (.cons (.mapping (.cons (.string s) v rest)) more))
         = .err (.unknownRendezvousVariable s))
  ∧ (∀ m more e2, (∃ en, processEntry m = .ok en) →
       processEntries more = .err e2 →
       processEntries (.cons (.mapping m) more) = .err e2)
  ∧ (∀ s rv v cv rest e2, RendezvousVariable.from_str s = some rv →
       yaml_to_cbor v = .ok cv → processEntry rest = .err e2 →
       processEntry (.cons (.string s) v rest) = .err e2) := by
  refine ⟨?_, ?_, ?_, ?_⟩
  · intro doc info h
    cases doc with
    | sequence es => exact processEntries_ok_no_unknown es info h
    | null => simp [load_rendezvous_info] at h
    | bool b => simp [load_rendezvous_info] at h
    | number nr => simp [load_rendezvous_info] at h
    | string s => simp [load_rendezvous_info] at h
    | mapping m => simp [load_rendezvous_info] at h
  · intro s v rest more hs
    simp [load_rendezvous_info, processEntries, processEntry, hs]
  · intro m more e2 hok hr
    obtain ⟨en, hm⟩ := hok
    simp [processEntries, hm, hr]
  · intro s rv v cv rest e2 hs hv hr
    simp [processEntry, hs, hv, hr]

/-- Witness for C6: an unknown key at the head of the first entry is
reported by name. -/
theorem load_rendezvous_info_unknown_key_rejected_witness :
    load_rendezvous_info
        (.sequence (.cons (.mapping (.cons (.string "frobnicate") .null .nil)) .nil))
      = .err (.unknownRendezvousVariable "frobnicate") :=
  load_rendezvous_info_unknown_key_rejected.2.1 "frobnicate" .null .nil .nil rfl

/-- Counterexample to C6 as stated: this document contains an entry whose
map key frobnicate matches no rendezvous variable, yet loading fails with
the invalid-key-type error of the earlier non-string key, not with an
error naming frobnicate. -/
theorem load_rendezvous_info_unknown_key_counterexample :
    docHasUnknownKey
        (.sequence (.cons (.mapping (.cons (.bool true) .null .nil))
          (.cons (.mapping (.cons (.string "frobnicate") .null .nil)) .nil))) = true
  ∧ load_rendezvous_info
        (.sequence (.cons (.mapping (.cons (.bool true) .null .nil))
          (.cons (.mapping (.cons (.string "frobnicate") .null .nil)) .nil)))
      = .err .invalidKeyType
  ∧ LoadError.invalidKeyType ≠ LoadError.unknownRendezvousVariable "frobnicate" :=
  ⟨rfl, rfl, by decide⟩

/-- Hash algorithms appearing on this provisioning path. -/
inductive HashType where
  | sha256
  | sha384
deriving DecidableEq, Repr

/-- Public key types of the protocol; this tool always uses SECP256R1. -/
inductive PublicKeyType where
  | secp256r1
  | secp384r1
deriving DecidableEq, Repr

/-- Opaque DER bytes of a private key, as loaded by load_private_key. -/
abbrev PrivateKeyBytes : Type := List Nat

/-- Opaque representation of a public key as embedded in a certificate. -/
abbrev PubKeyRepr : Type := List Nat

/-- An X509 name, carried as its CN text (initialize_device builds the
device subject as a single CN entry). -/
abbrev X509Name : Type := String

/-- Model of an X509 certificate as assembled by build_device_cert: the
fields the openssl X509Builder sets, with validity carried as day offsets
from the build instant and the signature as its digest algorithm. -/
structure X509Cert where
  subject_name : X509Name
  issuer_name : X509Name
  not_before_days : Nat
  not_after_days : Nat
  version : Nat
  serial : List Nat
  pubkey : PubKeyRepr
  signature_digest : HashType
deriving DecidableEq, Repr

/-- Model of fdo_data_formats PublicKeyBody: the manufacturer and owner
keys used by this tool are single X509 certificates. -/
inductive PublicKeyBody where
  | x509 (cert : X509Cert)
deriving DecidableEq, Repr

/-- Model of the protocol PublicKey as built by PublicKey::new: a type
tag and a body. -/
structure PublicKey where
  key_type : PublicKeyType
  body : PublicKeyBody
deriving DecidableEq, Repr

/-- Modelled from the spec: fdo_data_formats::types::Hash, a digest value
tagged with its algorithm. -/
structure Hash where
  hash_type : HashType
  value : List Nat
deriving DecidableEq, Repr

/-- Modelled from the spec: fdo_data_formats::types::HMac, a keyed digest
value tagged with its algorithm; HMac::new_from_data stores the given
bytes under the given algorithm. -/
structure HMac where
  hash_type : HashType
  value : List Nat
deriving DecidableEq, Repr

def HMac.new_from_data (t : HashType) (v : List Nat) : HMac := ⟨t, v⟩

/-- A device GUID: 128 bits generated at provisioning time by Guid::new,
carried as 16 bytes. -/
abbrev Guid : Type := List Nat

/-- The ownership voucher header with the fields assembled by
OwnershipVoucherHeader::new in initialize_device and read back by
dump_voucher: protocol version, device GUID, rendezvous info, device
info, manufacturer public key, optional device certificate chain
digest. -/
structure OwnershipVoucherHeader where
  protocol_version : Nat
  guid : Guid
  rendezvous_info : RendezvousInfo
  device_info : String
  public_key : PublicKey
  device_certificate_chain_hash : Option Hash

/-- One link of the ownership chain, with the fields read back by
dump_voucher: previous entry hash, header info hash, owner public key. -/
structure OwnershipVoucherEntry where
  hash_previous_entry : Hash
  hash_header_info : Hash
  public_key : PublicKey

/-- Modelled from the spec: the ownership voucher owns its serialized
header bytes (kept opaque to preserve byte-exact hashing), the header
integrity tag, the optional serialized device certificate chain, and the
append-only entry sequence. -/
structure OwnershipVoucher where
  header : List Nat
  header_hmac : HMac
  device_certificate_chain : Option (List Nat)
  entries : List OwnershipVoucherEntry

/-- Modelled from the spec: OwnershipVoucher::new stores the header
bytes, the integrity tag and the chain, with no entries yet. -/
def OwnershipVoucher.new (header : List Nat) (hmac : HMac)
    (chain : Option (List Nat)) : OwnershipVoucher :=
  { header := header, header_hmac := hmac,
    device_certificate_chain := chain, entries := [] }

/-- The device credential, with exactly the fields of the struct literal
built by initialize_device (main.rs lines 375-386). -/
structure DeviceCredential where
  active : Bool
  protver : Nat
  hmac_secret : List Nat
  device_info : String
  guid : Guid
  rvinfo : RendezvousInfo
  pubkey_hash : Hash
  private_key : List Nat

/-- External cryptographic and codec operations used by the tool but
implemented outside this code base (openssl HMAC and digests, serde_cbor
serialization, X5Chain serialization), injected as explicit function
parameters. -/
structure Crypto where
  hmacSha384 : List Nat → List Nat → List Nat
  digest : HashType → List Nat → List Nat
  serializeHeader : OwnershipVoucherHeader → List Nat
  serializeX5Chain : List X509Cert → List Nat

/-- Modelled from the spec: Hash::new of fdo_data_formats computes the
digest of the given data under the given algorithm, defaulting to the
path algorithm SHA-384 when none is given; the digest computation itself
is external and injected through Crypto. -/
def Hash.new (C : Crypto) (alg : Option HashType) (data : List Nat) : Hash :=
  { hash_type := alg.getD .sha384, value := C.digest (alg.getD .sha384) data }

/-- Shallow embedding of build_device_cert (main.rs lines 219-283). The
openssl X509Builder calls are modelled as record construction; the serial
number bytes, drawn inside the source function from the CSPRNG
(rand_bytes into an 8 byte buffer), are an explicit argument. An empty CA
chain is rejected before any building. -/
def build_device_cert (subject_name : X509Name) (device_pubkey : PubKeyRepr)
    (signer : PrivateKeyBytes) (chain : List X509Cert)
    (serial_rand : List Nat) : Except String X509Cert :=
  match signer, chain with
  | _, [] => .error "Insufficient device CA certs in the chain"
  | _, first :: _ =>
    .ok { subject_name := subject_name
          issuer_name := first.subject_name
          not_before_days := 0
          not_after_days := 3650
          version := 2
          serial := serial_rand
          pubkey := device_pubkey
          signature_digest := .sha384 }

/-- The device certificate chain of initialize_device (main.rs lines
356-357): the supplied CA chain Vec with the freshly built device
certificate inserted at index 0. -/
def device_cert_chain_list (device_cert : X509Cert)
    (ca_chain : List X509Cert) : List X509Cert :=
  device_cert :: ca_chain

/-- Random values generated during one initialize_device run (certificate
serial bytes, 32 byte HMAC key, device GUID, the freshly generated device
EC keypair presented through its public part and its private key DER
serialization), injected so a run is a deterministic function. -/
structure InitRandomness where
  serialBytes : List Nat
  hmacKeyBuf : List Nat
  deviceGuid : Guid
  devicePubkey : PubKeyRepr
  deviceKeyDer : List Nat

/-- Shallow embedding of initialize_device (main.rs lines 285-421) after
argument loading: builds the device certificate, the device certificate
chain and its digest, the device credential, the voucher header, its
HMAC-SHA384 integrity tag keyed with the fresh HMAC key, and the initial
voucher; returns the voucher and credential that the source serializes
to the two output files. -/
def initialize_device (C : Crypto) (device_id : String)
    (manufacturer_pubkey : PublicKey) (ca_key : PrivateKeyBytes)
    (ca_chain : List X509Cert) (rendezvous_info : RendezvousInfo)
    (R : InitRandomness) :
    Except String (OwnershipVoucher × DeviceCredential) :=
  match build_device_cert device_id R.devicePubkey ca_key ca_chain R.serialBytes with
  | .error e => .error e
  | .ok device_cert =>
    let chain := device_cert_chain_list device_cert ca_chain
    let chain_bytes := C.serializeX5Chain chain
    let chain_hash := Hash.new C (some .sha384) chain_bytes
    let devcred : DeviceCredential :=
      { active := true
        protver := 100
        hmac_secret := R.hmacKeyBuf
        device_info := device_id
        guid := R.deviceGuid
        rvinfo := rendezvous_info
        pubkey_hash := Hash.new C none []
        private_key := R.deviceKeyDer }
    let ov_header : OwnershipVoucherHeader :=
      { protocol_version := 100
        guid := R.deviceGuid
        rendezvous_info := rendezvous_info
        device_info := device_id
        public_key := manufacturer_pubkey
        device_certificate_chain_hash := some chain_hash }
    let header_bytes := C.serializeHeader ov_header
    let ov_hmac := HMac.new_from_data .sha384 (C.hmacSha384 R.hmacKeyBuf header_bytes)
    let ov := OwnershipVoucher.new header_bytes ov_hmac (some chain_bytes)
    .ok (ov, devcred)

/-- C4: called with an empty CA certificate chain, the certificate
builder fails with the certificate-build error and produces no
certificate, regardless of all other arguments. -/
theorem build_device_cert_empty_chain_fails (subject_name : X509Name)
    (device_pubkey : PubKeyRepr) (signer : PrivateKeyBytes)
    (serial_rand : List Nat) :
    build_device_cert subject_name device_pubkey signer [] serial_rand
      = .error "Insufficient device CA certs in the chain" := rfl

/-- C5: with a non-empty chain the builder succeeds and the produced leaf
certificate has the given subject, issuer equal to the first chain
certificate subject, validity from now (day 0) to now plus ten years
(3650 days in the source), version field 2 (the zero-based encoding of
X.509 v3), as serial exactly the 8 bytes drawn from the CSPRNG, and a
SHA-384 signature digest. -/
theorem build_device_cert_fields (subject_name : X509Name)
    (device_pubkey : PubKeyRepr) (signer : PrivateKeyBytes)
    (first : X509Cert) (rest : List X509Cert) (serial_rand : List Nat)
    (hlen : serial_rand.length = 8) :
    ∃ cert, build_device_cert subject_name device_pubkey signer
        (first :: rest) serial_rand = .ok cert
      ∧ cert.subject_name = subject_name
      ∧ cert.issuer_name = first.subject_name
      ∧ cert.not_before_days = 0
      ∧ cert.not_after_days = 3650
      ∧ cert.version = 2
      ∧ cert.serial = serial_rand
      ∧ cert.serial.length = 8
      ∧ cert.pubkey = device_pubkey
      ∧ cert.signature_digest = .sha384 :=
  ⟨_, rfl, rfl, rfl, rfl, rfl, rfl, rfl, hlen, rfl, rfl⟩

/-- A concrete CA certificate used by the closed evaluation theorems. -/
def caCert0 : X509Cert :=
  { subject_name := "ca"
    issuer_name := "root"
    not_before_days := 0
    not_after_days := 7300
    version := 2
    serial := [17]
    pubkey := [3]
    signature_digest := .sha256 }

/-- Witness for C5: the builder evaluated on a concrete subject, key,
one-certificate chain and concrete 8 random serial bytes. -/
theorem build_device_cert_fields_witness :
    (([0, 1, 2, 3, 4, 5, 6, 7] : List Nat).length = 8)
  ∧ ∃ cert, build_device_cert "dev-1" [4] [7] [caCert0] [0, 1, 2, 3, 4, 5, 6, 7]
        = .ok cert
      ∧ cert.subject_name = "dev-1"
      ∧ cert.issuer_name = caCert0.subject_name
      ∧ cert.not_before_days = 0
      ∧ cert.not_after_days = 3650
      ∧ cert.version = 2
      ∧ cert.serial = [0, 1, 2, 3, 4, 5, 6, 7]
      ∧ cert.serial.length = 8
      ∧ cert.pubkey = [4]
      ∧ cert.signature_digest = .sha384 :=
  ⟨rfl, build_device_cert_fields "dev-1" [4] [7] caCert0 [] [0, 1, 2, 3, 4, 5, 6, 7] rfl⟩

/-- C1: in every successful initialize-device run, the header integrity
tag stored in the produced voucher is the HMAC-SHA384 of the exact
serialized header bytes stored in that voucher, keyed with the
hmac_secret stored in the device credential produced by the same run. -/
theorem initialize_device_hmac_binds_credential (C : Crypto)
    (device_id : String) (mpk : PublicKey) (ca_key : PrivateKeyBytes)
    (ca_chain : List X509Cert) (rv : RendezvousInfo) (R : InitRandomness)
    (ov : OwnershipVoucher) (dc : DeviceCredential)
    (h : initialize_device C device_id mpk ca_key ca_chain rv R = .ok (ov, dc)) :
    ov.header_hmac
      = HMac.new_from_data .sha384 (C.hmacSha384 dc.hmac_secret ov.header) := by
  cases ca_chain with
  | nil => exact Except.noConfusion h
  | cons first rest =>
    injection h with h2
    injection h2 with hov hdc
    subst hov; subst hdc
    rfl

/-- C3 (amended): the certificate chain that initialize-device
serializes, hashes into the header and embeds in the voucher is ordered
leaf first, followed by the entire supplied CA chain including its final
anchor certificate. -/
theorem initialize_device_chain_leaf_first (C : Crypto)
    (device_id : String) (mpk : PublicKey) (ca_key : PrivateKeyBytes)
    (first : X509Cert) (rest : List X509Cert) (rv : RendezvousInfo)
    (R : InitRandomness) (ov : OwnershipVoucher) (dc : DeviceCredential)
    (h : initialize_device C device_id mpk ca_key (first :: rest) rv R
          = .ok (ov, dc)) :
    ∃ leaf,
      ov.device_certificate_chain
          = some (C.serializeX5Chain (device_cert_chain_list leaf (first :: rest)))
      ∧ leaf.subject_name = device_id
      ∧ leaf.issuer_name = first.subject_name
      ∧ ∃ hdr, ov.header = C.serializeHeader hdr
          ∧ hdr.device_certificate_chain_hash
              = some (Hash.new C (some .sha384)
                  (C.serializeX5Chain (device_cert_chain_list leaf (first :: rest)))) := by
  injection h with h2
  injection h2 with hov hdc
  subst hov; subst hdc
  exact ⟨_, rfl, rfl, rfl, _, rfl, rfl⟩

/-- C8: every successful initialize-device run yields a credential with
active set, protocol version 100, the raw device private key bytes and
the digest over empty input as expected-owner digest, and a voucher with
an empty entry sequence whose header carries device-info equal to the
supplied identifier and the same GUID as the credential. -/
theorem initialize_device_credential_and_voucher_fields (C : Crypto)
    (device_id : String) (mpk : PublicKey) (ca_key : PrivateKeyBytes)
    (ca_chain : List X509Cert) (rv : RendezvousInfo) (R : InitRandomness)
    (ov : OwnershipVoucher) (dc : DeviceCredential)
    (h : initialize_device C device_id mpk ca_key ca_chain rv R = .ok (ov, dc)) :
    dc.active = true
  ∧ dc.protver = 100
  ∧ dc.private_key = R.deviceKeyDer
  ∧ dc.pubkey_hash = Hash.new C none []
  ∧ ov.entries = []
  ∧ ∃ hdr, ov.header = C.serializeHeader hdr
      ∧ hdr.protocol_version = 100
      ∧ hdr.device_info = device_id
      ∧ hdr.guid = dc.guid := by
  cases ca_chain with
  | nil => exact Except.noConfusion h
  | cons first rest =>
    injection h with h2
    injection h2 with hov hdc
    subst hov; subst hdc
    exact ⟨rfl, rfl, rfl, rfl, rfl, _, rfl, rfl, rfl, rfl⟩

/-- Concrete external operations used by the closed evaluation
theorems. -/
def crypto0 : Crypto :=
  { hmacSha384 := fun key data => key ++ data
    digest := fun _ data => 0 :: data
    serializeHeader := fun hdr => hdr.protocol_version :: hdr.guid
    serializeX5Chain := fun cs => [cs.length] }

/-- Concrete randomness used by the closed evaluation theorems. -/
def rand0 : InitRandomness :=
  { serialBytes := [0, 1, 2, 3, 4, 5, 6, 7]
    hmacKeyBuf := [9, 9]
    deviceGuid := [1, 2, 3]
    devicePubkey := [4]
    deviceKeyDer := [5, 6] }

/-- Concrete manufacturer public key. -/
def mpk0 : PublicKey := ⟨.secp256r1, .x509 caCert0⟩

/-- The device certificate built in the concrete run. -/
def leaf0 : X509Cert :=
  { subject_name := "dev-1"
    issuer_name := "ca"
    not_before_days := 0
    not_after_days := 3650
    version := 2
    serial := [0, 1, 2, 3, 4, 5, 6, 7]
    pubkey := [4]
    signature_digest := .sha384 }

/-- The device credential produced by the concrete run. -/
def dc0 : DeviceCredential :=
  { active := true
    protver := 100
    hmac_secret := [9, 9]
    device_info := "dev-1"
    guid := [1, 2, 3]
    rvinfo := []
    pubkey_hash := ⟨.sha384, [0]⟩
    private_key := [5, 6] }

/-- The ownership voucher produced by the concrete run. -/
def ov0 : OwnershipVoucher :=
  { header := [100, 1, 2, 3]
    header_hmac := ⟨.sha384, [9, 9, 100, 1, 2, 3]⟩
    device_certificate_chain := some [2]
    entries := [] }

/-- Witness for C1: the concrete run evaluated, tag recomputed from the
concrete credential secret and header bytes. -/
theorem initialize_device_hmac_binds_credential_witness :
    initialize_device crypto0 "dev-1" mpk0 [7] [caCert0] [] rand0 = .ok (ov0, dc0)
  ∧ ov0.header_hmac
      = HMac.new_from_data .sha384 (crypto0.hmacSha384 dc0.hmac_secret ov0.header) :=
  ⟨rfl, initialize_device_hmac_binds_credential crypto0 "dev-1" mpk0 [7]
    [caCert0] [] rand0 ov0 dc0 rfl⟩

/-- Witness for C3 (amended): the concrete run evaluated. -/
theorem initialize_device_chain_leaf_first_witness :
    initialize_device crypto0 "dev-1" mpk0 [7] [caCert0] [] rand0 = .ok (ov0, dc0)
  ∧ ∃ leaf,
      ov0.device_certificate_chain
          = some (crypto0.serializeX5Chain (device_cert_chain_list leaf [caCert0]))
      ∧ leaf.subject_name = "dev-1"
      ∧ leaf.issuer_name = caCert0.subject_name
      ∧ ∃ hdr, ov0.header = crypto0.serializeHeader hdr
          ∧ hdr.device_certificate_chain_hash
              = some (Hash.new crypto0 (some .sha384)
                  (crypto0.serializeX5Chain (device_cert_chain_list leaf [caCert0]))) :=
  ⟨rfl, initialize_device_chain_leaf_first crypto0 "dev-1" mpk0 [7] caCert0 []
    [] rand0 ov0 dc0 rfl⟩

/-- Counterexample to C3 as stated: in the concrete run the supplied CA
chain is the single anchor certificate caCert0; the chain built, hashed
and embedded is the leaf followed by that whole CA chain, so it does
include the final anchor certificate. -/
theorem device_cert_chain_includes_anchor_counterexample :
    build_device_cert "dev-1" [4] [7] [caCert0] [0, 1, 2, 3, 4, 5, 6, 7] = .ok leaf0
  ∧ device_cert_chain_list leaf0 [caCert0] = [leaf0, caCert0]
  ∧ ([caCert0] : List X509Cert).getLast? = some caCert0
  ∧ caCert0 ∈ device_cert_chain_list leaf0 [caCert0]
  ∧ initialize_device crypto0 "dev-1" mpk0 [7] [caCert0] [] rand0 = .ok (ov0, dc0)
  ∧ ov0.device_certificate_chain
      = some (crypto0.serializeX5Chain (device_cert_chain_list leaf0 [caCert0])) :=
  ⟨rfl, rfl, rfl, by simp [device_cert_chain_list], rfl, rfl⟩

/-- Witness for C8: the concrete run evaluated. -/
theorem initialize_device_credential_and_voucher_fields_witness :
    initialize_device crypto0 "dev-1" mpk0 [7] [caCert0] [] rand0 = .ok (ov0, dc0)
  ∧ (dc0.active = true
     ∧ dc0.protver = 100
     ∧ dc0.private_key = rand0.deviceKeyDer
     ∧ dc0.pubkey_hash = Hash.new crypto0 none []
     ∧ ov0.entries = []
     ∧ ∃ hdr, ov0.header = crypto0.serializeHeader hdr
         ∧ hdr.protocol_version = 100
         ∧ hdr.device_info = "dev-1"
         ∧ hdr.guid = dc0.guid) :=
  ⟨rfl, initialize_device_credential_and_voucher_fields crypto0 "dev-1" mpk0 [7]
    [caCert0] [] rand0 ov0 dc0 rfl⟩

/-- Display name of a rendezvous variable, modelling the derived Debug
form used when printing rendezvous entries. -/
def RendezvousVariable.name : RendezvousVariable → String
  | .deviceOnly => "DeviceOnly"
  | .ownerOnly => "OwnerOnly"
  | .ipAddress => "IPAddress"
  | .devicePort => "DevicePort"
  | .ownerPort => "OwnerPort"
  | .dns => "Dns"
  | .protocolValue => "Protocol"
  | .delaysec => "Delaysec"

mutual

/-- Debug rendering of a cbor value, modelling the derived Debug
formatting used by the dump commands; the exact text is external
derive-generated code and only its dependence on the value matters. -/
def cborDebug : CborValue → String
  | .null => "Null"
  | .bool b => "Bool(" ++ toString b ++ ")"
  | .integer i => "Integer(" ++ toString i ++ ")"
  | .float f => "Float(" ++ toString f ++ ")"
  | .text s => "Text(" ++ s ++ ")"
  | .array xs => "Array(" ++ cborSeqDebug xs ++ ")"
  | .map m => "Map(" ++ cborMapDebug m ++ ")"

/-- Debug rendering of a cbor sequence. -/
def cborSeqDebug : CborSeq → String
  | .nil => ""
  | .cons x rest => cborDebug x ++ ", " ++ cborSeqDebug rest

/-- Debug rendering of cbor map pairs. -/
def cborMapDebug : CborMap → String
  | .nil => ""
  | .cons k v rest =>
    "(" ++ cborDebug k ++ ", " ++ cborDebug v ++ "), " ++ cborMapDebug rest

end

/-- Debug rendering of one rendezvous entry, in order. -/
def rvEntryDebug (e : RendezvousEntry) : String :=
  String.intercalate ", "
    (e.map (fun p => "(" ++ p.1.name ++ ", " ++ cborDebug p.2 ++ ")"))

/-- Rendering of a GUID, modelling its uuid display form. -/
def guidToString (g : Guid) : String :=
  String.intercalate "-" (g.map toString)

/-- Rendering of a tagged hash value for display. -/
def hashToString (h : Hash) : String :=
  (match h.hash_type with
   | .sha256 => "sha256"
   | .sha384 => "sha384")
  ++ ": " ++ String.intercalate " " (h.value.map toString)

/-- Shallow embedding of dump_devcred (main.rs lines 467-491) after the
credential is deserialized: the lines printed, in order. The HMAC key and
private key lines print the fixed text secret and never read the
fields. -/
def dump_devcred (dc : DeviceCredential) : List String :=
  [ "Active: " ++ toString dc.active
  , "Protocol Version: " ++ toString dc.protver
  , "HMAC key: <secret>"
  , "Device Info: " ++ dc.device_info
  , "Device GUID: " ++ guidToString dc.guid
  , "Rendezvous Info:" ]
  ++ dc.rvinfo.map (fun e => "\t- " ++ rvEntryDebug e)
  ++ [ "Public key hash: " ++ hashToString dc.pubkey_hash
     , "Private key: <secret>" ]

/-- C9: the rendered credential report is independent of the secret
fields: replacing hmac_secret and private_key by any other bytes leaves
the report identical, so the output never contains the raw private key or
HMAC secret bytes. -/
theorem dump_devcred_redacts_secrets (dc : DeviceCredential)
    (hm pk : List Nat) :
    dump_devcred { dc with hmac_secret := hm, private_key := pk }
      = dump_devcred dc := rfl

/-- A file system as seen by the tool: contents by path, when present. -/
abbrev FS : Type := String → Option (List Nat)

/-- Writing a file: the path now holds the given bytes. -/
def fsWrite (fs : FS) (p : String) (data : List Nat) : FS :=
  fun q => if q = p then some data else fs q

/-- Model of fs::rename: the destination takes the content the source had
and the source is removed; the step is atomic. -/
def fsRename (fs : FS) (src dst : String) : FS :=
  fun q => if q = src then none else if q = dst then fs src else fs q

/-- Failure sites of extend_voucher, in source order. -/
inductive ExtendError where
  | openVoucherFailed
  | loadVoucherFailed
  | loadKeyFailed
  | parseKeyFailed
  | loadCertFailed
  | parseCertFailed
  | newPublicKeyFailed
  | extendFailed
  | writeFailed
deriving DecidableEq, Repr

/-- External operations of extend_voucher: the serde_cbor voucher codec,
openssl key and certificate parsing, PublicKey::new, and the
OwnershipVoucher::extend operation of fdo_data_formats (which appends one
entry and can fail, per the spec, when signing fails or the new owner key
cannot be constructed). A write fault while producing the temporary file
is injected through writeFault, with writtenOnFault the partial bytes the
interrupted write leaves at the temporary path. -/
structure ExtendEnv where
  deserializeOV : List Nat → Option OwnershipVoucher
  parsePrivateKey : List Nat → Option PrivateKeyBytes
  parseX509 : List Nat → Option X509Cert
  newPublicKey : X509Cert → Option PublicKey
  extendOV : OwnershipVoucher → PrivateKeyBytes → PublicKey → Option OwnershipVoucher
  serializeOV : OwnershipVoucher → List Nat
  writeFault : Bool
  writtenOnFault : List Nat

/-- Shallow embedding of extend_voucher (main.rs lines 493-542): load and
parse the voucher, the current owner private key and the new owner
certificate, extend the voucher, serialize it to the sibling temporary
path (the original path with .new appended) and rename the temporary
file over the original path. Every failure returns the file system as it
stands at that point. -/
def extend_voucher (E : ExtendEnv) (ovPath keyPath certPath : String)
    (fs : FS) : Except ExtendError Unit × FS :=
  match fs ovPath with
  | none => (.error .openVoucherFailed, fs)
  | some ovBytes =>
    match E.deserializeOV ovBytes with
    | none => (.error .loadVoucherFailed, fs)
    | some ov =>
      match fs keyPath with
      | none => (.error .loadKeyFailed, fs)
      | some keyBytes =>
        match E.parsePrivateKey keyBytes with
        | none => (.error .parseKeyFailed, fs)
        | some key =>
          match fs certPath with
          | none => (.error .loadCertFailed, fs)
          | some certBytes =>
            match E.parseX509 certBytes with
            | none => (.error .parseCertFailed, fs)
            | some cert =>
              match E.newPublicKey cert with
              | none => (.error .newPublicKeyFailed, fs)
              | some npk =>
                match E.extendOV ov key npk with
                | none => (.error .extendFailed, fs)
                | some newOv =>
                  if E.writeFault then
                    (.error .writeFailed,
                     fsWrite fs (ovPath ++ ".new") E.writtenOnFault)
                  else
                    (.ok (),
                     fsRename (fsWrite fs (ovPath ++ ".new") (E.serializeOV newOv))
                       (ovPath ++ ".new") ovPath)

theorem append_new_ne (p : String) : p ++ ".new" ≠ p := by
  intro h
  have hl := congrArg String.length h
  rw [String.length_append] at hl
  have h4 : (".new" : String).length = 4 := rfl
  omega

/-- C2: extend-voucher serializes the updated voucher to the sibling
temporary path (the original path with .new appended) and renames it over
the original path; whenever any step fails before the rename (loading,
parsing, extending, or writing the temporary file), the file at the
original path is byte-for-byte unchanged; on success the original path
holds the serialized updated voucher and the temporary path is gone. -/
theorem extend_voucher_atomic (E : ExtendEnv)
    (ovPath keyPath certPath : String) (fs : FS) :
    (∀ e, (extend_voucher E ovPath keyPath certPath fs).1 = .error e →
       (extend_voucher E ovPath keyPath certPath fs).2 ovPath = fs ovPath)
  ∧ (∀ ovBytes ov keyBytes key certBytes cert npk newOv,
       fs ovPath = some ovBytes → E.deserializeOV ovBytes = some ov →
       fs keyPath = some keyBytes → E.parsePrivateKey keyBytes = some key →
       fs certPath = some certBytes → E.parseX509 certBytes = some cert →
       E.newPublicKey cert = some npk → E.extendOV ov key npk = some newOv →
       E.writeFault = false →
       extend_voucher E ovPath keyPath certPath fs
           = (.ok (), fsRename (fsWrite fs (ovPath ++ ".new") (E.serializeOV newOv))
               (ovPath ++ ".new") ovPath)
       ∧ (extend_voucher E ovPath keyPath certPath fs).2 ovPath
           = some (E.serializeOV newOv)
       ∧ (extend_voucher E ovPath keyPath certPath fs).2 (ovPath ++ ".new")
           = none) := by
  have hne : ovPath ≠ ovPath ++ ".new" :=
    fun hcontra => append_new_ne ovPath hcontra.symm
  constructor
  · intro e h
    cases hov : fs ovPath with
    | none => simp [extend_voucher, hov]
    | some ovBytes =>
      cases hD : E.deserializeOV ovBytes with
      | none => simp [extend_voucher, hov, hD]
      | some ov =>
        cases hk : fs keyPath with
        | none => simp [extend_voucher, hov, hD, hk]
        | some keyBytes =>
          cases hpk : E.parsePrivateKey keyBytes with
          | none => simp [extend_voucher, hov, hD, hk, hpk]
          | some key =>
            cases hc : fs certPath with
            | none => simp [extend_voucher, hov, hD, hk, hpk, hc]
            | some certBytes =>
              cases hx : E.parseX509 certBytes with
              | none => simp [extend_voucher, hov, hD, hk, hpk, hc, hx]
              | some cert =>
                cases hn : E.newPublicKey cert with
                | none => simp [extend_voucher, hov, hD, hk, hpk, hc, hx, hn]
                | some npk =>
                  cases hx2 : E.extendOV ov key npk with
                  | none => simp [extend_voucher, hov, hD, hk, hpk, hc, hx, hn, hx2]
                  | some newOv =>
                    cases hw : E.writeFault with
                    | true =>
                      simp [extend_voucher, hov, hD, hk, hpk, hc, hx, hn, hx2,
                        hw, fsWrite, hne]
                    | false =>
                      simp [extend_voucher, hov, hD, hk, hpk, hc, hx, hn, hx2,
                        hw] at h
  · intro ovBytes ov keyBytes key certBytes cert npk newOv h1 h2 h3 h4 h5 h6 h7 h8 h9
    refine ⟨?_, ?_, ?_⟩ <;>
      simp [extend_voucher, h1, h2, h3, h4, h5, h6, h7, h8, h9,
        fsRename, fsWrite, hne]

/-- Concrete extension environment with an injected fault while writing
the temporary file. -/
def envFault0 : ExtendEnv :=
  { deserializeOV := fun _ => some ov0
    parsePrivateKey := fun b => some b
    parseX509 := fun _ => some caCert0
    newPublicKey := fun c => some ⟨.secp256r1, .x509 c⟩
    extendOV := fun ov _ npk =>
      some { ov with entries := ov.entries ++ [⟨⟨.sha384, [1]⟩, ⟨.sha384, [2]⟩, npk⟩] }
    serializeOV := fun ov => [ov.entries.length]
    writeFault := true
    writtenOnFault := [0] }

/-- Concrete file system holding a voucher, a key and a certificate. -/
def fs0 : FS :=
  fun q =>
    if q = "ov" then some [1]
    else if q = "key" then some [2]
    else if q = "cert" then some [3] else none

/-- Witness for C2: with the injected write fault the run fails after the
temporary file is touched, and the original voucher bytes are unchanged. -/
theorem extend_voucher_atomic_witness :
    (extend_voucher envFault0 "ov" "key" "cert" fs0).1
        = .error .writeFailed
  ∧ (extend_voucher envFault0 "ov" "key" "cert" fs0).2 "ov" = fs0 "ov" :=
  ⟨rfl, (extend_voucher_atomic envFault0 "ov" "key" "cert" fs0).1 .writeFailed rfl⟩
